import Mathlib

/-!
Verification of the rate-conversion module (`PairRate`) of the repository
`input_output-rs` (src/lib.rs), shallowly embedded in Lean 4.

Rust `u128` values are modelled as `Nat` together with explicit bounds
against `U128_MAX = 2 ^ 128 - 1`; the fallible Rust functions returning
`Result<_, String>` are modelled as `Except String _` carrying the exact
error message strings produced by the source.
-/

namespace InputOutput

/-- Largest value representable in Rust `u128`. -/
def U128_MAX : Nat := 2 ^ 128 - 1

/-- Source constant `MAX_DECIMALS : u8 = 38`. -/
def MAX_DECIMALS : Nat := 38

/-- Source constant `MIN_RATE : u128 = 1`. -/
def MIN_RATE : Nat := 1

/-- Source constant `MAX_RATE : u128 = u128::MAX / 2`. -/
def MAX_RATE : Nat := U128_MAX / 2

/-- Source constant `MAX_DECIMAL_DIFF : u8 = 32`. -/
def MAX_DECIMAL_DIFF : Nat := 32

/-- The `PairRate` struct.  The `rate` components are `u128`, the `decimals`
components are `u8`; both are modelled as `Nat`. -/
structure PairRate where
  token_pair : String × String
  rate : Nat × Nat
  decimals : Nat × Nat

/-- Rust `10u128.checked_pow(e)` (and `checked_mul` below): `some` of the exact
mathematical value when it fits in `u128`, `none` otherwise. -/
def checked_pow (base exp : Nat) : Option Nat :=
  if base ^ exp ≤ U128_MAX then some (base ^ exp) else none

/-- Rust `a.checked_mul(b)` on `u128`. -/
def checked_mul (a b : Nat) : Option Nat :=
  if a * b ≤ U128_MAX then some (a * b) else none

/-- `PairRate::validate_decimals` from src/lib.rs. -/
def validate_decimals (decimals : Nat × Nat) : Except String Unit :=
  if decimals.1 > MAX_DECIMALS then
    .error ("Input decimals " ++ toString decimals.1 ++ " exceeds maximum allowed "
      ++ toString MAX_DECIMALS)
  else if decimals.2 > MAX_DECIMALS then
    .error ("Output decimals " ++ toString decimals.2 ++ " exceeds maximum allowed "
      ++ toString MAX_DECIMALS)
  else
    .ok ()

/-- `PairRate::validate_rate` from src/lib.rs. -/
def validate_rate (rate : Nat × Nat) : Except String Unit :=
  if rate.1 < MIN_RATE ∨ rate.2 < MIN_RATE then
    .error "Rate components must be greater than 0"
  else if rate.1 > MAX_RATE ∨ rate.2 > MAX_RATE then
    .error ("Rate components must be less than " ++ toString MAX_RATE)
  else
    .ok ()

/-- `PairRate::safe_multiply_divide` from src/lib.rs: the product is taken in
`BigUint` (exact arithmetic, here plain `Nat`), floor-divided, then narrowed
back to `u128` with a fit check. -/
def safe_multiply_divide (amount multiplier divisor : Nat) : Except String Nat :=
  if divisor = 0 then
    .error "Division by zero"
  else if amount > MAX_RATE ∨ multiplier > MAX_RATE then
    .error "Input values too large for safe calculation"
  else if amount * multiplier / divisor ≤ U128_MAX then
    .ok (amount * multiplier / divisor)
  else
    .error "Result exceeds u128"

/-- `PairRate::adjust_decimals` from src/lib.rs. -/
def adjust_decimals (amount from_decimals to_decimals : Nat) : Except String Nat :=
  if from_decimals > MAX_DECIMALS ∨ to_decimals > MAX_DECIMALS then
    .error ("Decimals must be less than or equal to " ++ toString MAX_DECIMALS)
  else
    let decimal_diff := if from_decimals > to_decimals then from_decimals - to_decimals
      else to_decimals - from_decimals
    if decimal_diff > MAX_DECIMAL_DIFF then
      .error ("Decimal difference " ++ toString decimal_diff ++ " exceeds maximum allowed "
        ++ toString MAX_DECIMAL_DIFF)
    else if from_decimals = to_decimals then
      .ok amount
    else if from_decimals > to_decimals then
      match checked_pow 10 (from_decimals - to_decimals) with
      | none => .error "Decimal divisor overflow"
      | some divisor => .ok (amount / divisor)
    else
      match checked_pow 10 (to_decimals - from_decimals) with
      | none => .error "Decimal multiplier overflow"
      | some multiplier =>
        match checked_mul amount multiplier with
        | none => .error "Decimal adjustment caused overflow"
        | some v => .ok v

/-- `PairRate::calculate_output_amount` from src/lib.rs.  `price.rate.1` is the
input rate, `price.rate.2` the output rate (Rust `.0` / `.1`). -/
def calculate_output_amount (price : PairRate) (input_amount : Nat) : Except String Nat :=
  if input_amount = 0 then
    .error "Input amount must be greater than 0"
  else
    match validate_rate price.rate with
    | .error e => .error e
    | .ok _ =>
      match validate_decimals price.decimals with
      | .error e => .error e
      | .ok _ =>
        if input_amount > U128_MAX / price.rate.2 then
          .error "Input amount too large, would cause overflow"
        else
          match safe_multiply_divide input_amount price.rate.2 price.rate.1 with
          | .error e => .error e
          | .ok base_output =>
            match adjust_decimals base_output price.decimals.1 price.decimals.2 with
            | .error e => .error e
            | .ok adjusted_output =>
              if adjusted_output = 0 then
                .error "Calculated output amount is zero, increase input amount"
              else
                .ok adjusted_output

/-- `PairRate::calculate_input_amount` from src/lib.rs, the mirror of
`calculate_output_amount`. -/
def calculate_input_amount (price : PairRate) (output_amount : Nat) : Except String Nat :=
  if output_amount = 0 then
    .error "Output amount must be greater than 0"
  else
    match validate_rate price.rate with
    | .error e => .error e
    | .ok _ =>
      match validate_decimals price.decimals with
      | .error e => .error e
      | .ok _ =>
        if output_amount > U128_MAX / price.rate.1 then
          .error "Output amount too large, would cause overflow"
        else
          match safe_multiply_divide output_amount price.rate.1 price.rate.2 with
          | .error e => .error e
          | .ok base_input =>
            match adjust_decimals base_input price.decimals.2 price.decimals.1 with
            | .error e => .error e
            | .ok adjusted_input =>
              if adjusted_input = 0 then
                .error "Calculated input amount is zero, increase output amount"
              else
                .ok adjusted_input

/-- `PairRate::get_price_rate` from src/lib.rs. -/
def get_price_rate (p : PairRate) : (Nat × Nat) × (Nat × Nat) :=
  (p.rate, p.decimals)

/-- `PairRate::is_valid` from src/lib.rs. -/
def is_valid (p : PairRate) : Bool :=
  (validate_rate p.rate).toBool && (validate_decimals p.decimals).toBool

instance instDecEqExcept {ε α : Type} [DecidableEq ε] [DecidableEq α] :
    DecidableEq (Except ε α)
  | .error a, .error b =>
    if h : a = b then .isTrue (by rw [h])
    else .isFalse (by intro hc; injection hc; contradiction)
  | .error _, .ok _ => .isFalse (by intro h; exact Except.noConfusion h)
  | .ok _, .error _ => .isFalse (by intro h; exact Except.noConfusion h)
  | .ok a, .ok b =>
    if h : a = b then .isTrue (by rw [h])
    else .isFalse (by intro hc; injection hc; contradiction)

/-- The descriptor of the round-trip test: rate `(3, 5)`, decimals `(24, 18)`. -/
def pr_roundtrip : PairRate :=
  { token_pair := ("TOKEN_A", "TOKEN_B"), rate := (3, 5), decimals := (24, 18) }

/-- The descriptor of concrete example A: rate `(10, 19)`, decimals `(24, 24)`. -/
def pr_exampleA : PairRate :=
  { token_pair := ("TOKEN_A", "TOKEN_B"), rate := (10, 19), decimals := (24, 24) }

/-- Claim C1: for rate `(3, 5)` and decimals `(24, 18)`,
`calculate_output_amount` on input `3_000_000_000_000_000_000_000_000` succeeds
(with value `5_000_000_000_000_000_000`), and `calculate_input_amount` applied
to that result returns exactly the original input amount. -/
theorem C1_round_trip :
    calculate_output_amount pr_roundtrip 3000000000000000000000000
      = Except.ok 5000000000000000000 ∧
    calculate_input_amount pr_roundtrip 5000000000000000000
      = Except.ok 3000000000000000000000000 := by
  constructor <;> rfl

/-- Claim C5: for rate `(10, 19)` and decimals `(24, 24)`,
`calculate_output_amount` on input `200_000_000_000_000_000_000_000_000`
returns `Ok(380_000_000_000_000_000_000_000_000)`. -/
theorem C5_exampleA :
    calculate_output_amount pr_exampleA 200000000000000000000000000
      = Except.ok 380000000000000000000000000 := by
  rfl

/-- Claim C4: for every descriptor, valid or not, both conversion functions on
amount `0` fail with the zero-amount error before any validation runs. -/
theorem C4_zero_guard (price : PairRate) :
    calculate_output_amount price 0 = Except.error "Input amount must be greater than 0" ∧
    calculate_input_amount price 0 = Except.error "Output amount must be greater than 0" := by
  constructor <;> rfl

/-- Any power of ten with exponent at most `MAX_DECIMAL_DIFF` fits in `u128`. -/
lemma pow10_le (d : Nat) (hd : d ≤ MAX_DECIMAL_DIFF) : 10 ^ d ≤ U128_MAX :=
  le_trans (Nat.pow_le_pow_right (by norm_num) hd) (by norm_num [MAX_DECIMAL_DIFF, U128_MAX])

/-- With equal decimal counts within range, `adjust_decimals` is the identity. -/
lemma adjust_self (x d : Nat) (hd : d ≤ MAX_DECIMALS) : adjust_decimals x d d = .ok x := by
  unfold adjust_decimals
  rw [if_neg (by omega : ¬ (d > MAX_DECIMALS ∨ d > MAX_DECIMALS))]
  simp

/-- Scaling up reduces to the checked multiplication by `10 ^ (b - a)`. -/
lemma adjust_up (x a b : Nat) (hab : a < b) (hb : b ≤ MAX_DECIMALS)
    (hdiff : b - a ≤ MAX_DECIMAL_DIFF) :
    adjust_decimals x a b
      = match checked_mul x (10 ^ (b - a)) with
        | none => .error "Decimal adjustment caused overflow"
        | some v => .ok v := by
  unfold adjust_decimals
  rw [if_neg (by omega : ¬ (a > MAX_DECIMALS ∨ b > MAX_DECIMALS))]
  simp only [gt_iff_lt, Nat.lt_irrefl]
  rw [if_neg (by omega : ¬ a > b)]
  rw [if_neg (by omega : ¬ (b - a > MAX_DECIMAL_DIFF))]
  rw [if_neg (by omega : ¬ a = b), if_neg (by omega : ¬ a > b)]
  have hpow : checked_pow 10 (b - a) = some (10 ^ (b - a)) := by
    unfold checked_pow
    rw [if_pos (pow10_le _ hdiff)]
  rw [hpow]

/-- Scaling down divides exactly by `10 ^ (a - b)` (floor division). -/
lemma adjust_down (x a b : Nat) (hab : b < a) (ha : a ≤ MAX_DECIMALS)
    (hdiff : a - b ≤ MAX_DECIMAL_DIFF) :
    adjust_decimals x a b = .ok (x / 10 ^ (a - b)) := by
  unfold adjust_decimals
  rw [if_neg (by omega : ¬ (a > MAX_DECIMALS ∨ b > MAX_DECIMALS))]
  simp only [gt_iff_lt]
  rw [if_pos (by omega : b < a)]
  rw [if_neg (by omega : ¬ (a - b > MAX_DECIMAL_DIFF))]
  rw [if_neg (by omega : ¬ a = b), if_pos (by omega : a > b)]
  have hpow : checked_pow 10 (a - b) = some (10 ^ (a - b)) := by
    unfold checked_pow
    rw [if_pos (pow10_le _ hdiff)]
  rw [hpow]

/-- Claim C2: `safe_multiply_divide` fails with the division-by-zero error when
the divisor is zero; otherwise fails with the operand-too-large error when
either the amount or the multiplier exceeds `MAX_RATE`; otherwise computes the
exact floor of `amount * multiplier / divisor` and returns it when it fits in
`u128`, failing with the result-overflow error when it does not. -/
theorem C2_safe_multiply_divide (amount multiplier divisor : Nat) :
    (divisor = 0 →
      safe_multiply_divide amount multiplier divisor = .error "Division by zero") ∧
    (divisor ≠ 0 → (MAX_RATE < amount ∨ MAX_RATE < multiplier) →
      safe_multiply_divide amount multiplier divisor
        = .error "Input values too large for safe calculation") ∧
    (divisor ≠ 0 → amount ≤ MAX_RATE → multiplier ≤ MAX_RATE →
      (amount * multiplier / divisor ≤ U128_MAX →
        safe_multiply_divide amount multiplier divisor
          = .ok (amount * multiplier / divisor)) ∧
      (U128_MAX < amount * multiplier / divisor →
        safe_multiply_divide amount multiplier divisor = .error "Result exceeds u128")) := by
  refine ⟨fun h0 => ?_, fun h0 hbig => ?_, fun h0 ha hm => ⟨fun hfit => ?_, fun hover => ?_⟩⟩
  · unfold safe_multiply_divide
    rw [if_pos h0]
  · unfold safe_multiply_divide
    rw [if_neg h0, if_pos (by omega : amount > MAX_RATE ∨ multiplier > MAX_RATE)]
  · unfold safe_multiply_divide
    rw [if_neg h0, if_neg (by omega : ¬ (amount > MAX_RATE ∨ multiplier > MAX_RATE)),
      if_pos hfit]
  · unfold safe_multiply_divide
    rw [if_neg h0, if_neg (by omega : ¬ (amount > MAX_RATE ∨ multiplier > MAX_RATE)),
      if_neg (by omega : ¬ amount * multiplier / divisor ≤ U128_MAX)]

/-- Witness for C2 at `(6, 7, 3)`: the division path returns `floor(6*7/3) = 14`. -/
theorem C2_witness : safe_multiply_divide 6 7 3 = Except.ok 14 :=
  ((C2_safe_multiply_divide 6 7 3).2.2 (by decide) (by decide) (by decide)).1 (by decide)

/-- Claim C3: `adjust_decimals` is the identity at equal decimal counts within
range; `(24, 18)` scales down by exact floor division by `10 ^ 6`; `(18, 24)`
scales up by `10 ^ 6` when the product fits in `u128` and fails with the
multiply-overflow error otherwise. -/
theorem C3_adjust_decimals (x d : Nat) (hd : d ≤ MAX_DECIMALS) :
    adjust_decimals x d d = .ok x ∧
    adjust_decimals x 24 18 = .ok (x / 10 ^ 6) ∧
    (x * 10 ^ 6 ≤ U128_MAX → adjust_decimals x 18 24 = .ok (x * 10 ^ 6)) ∧
    (U128_MAX < x * 10 ^ 6 →
      adjust_decimals x 18 24 = .error "Decimal adjustment caused overflow") := by
  refine ⟨adjust_self x d hd, ?_, fun hfit => ?_, fun hover => ?_⟩
  · have h := adjust_down x 24 18 (by omega) (by norm_num [MAX_DECIMALS])
      (by norm_num [MAX_DECIMAL_DIFF])
    simpa using h
  · have h := adjust_up x 18 24 (by omega) (by norm_num [MAX_DECIMALS])
      (by norm_num [MAX_DECIMAL_DIFF])
    rw [h]
    have hc : checked_mul x (10 ^ (24 - 18)) = some (x * 10 ^ 6) := by
      unfold checked_mul
      rw [if_pos (by simpa using hfit)]
    rw [hc]
  · have h := adjust_up x 18 24 (by omega) (by norm_num [MAX_DECIMALS])
      (by norm_num [MAX_DECIMAL_DIFF])
    rw [h]
    have hc : checked_mul x (10 ^ (24 - 18)) = none := by
      unfold checked_mul
      rw [if_neg (by simp only [show (24 : Nat) - 18 = 6 from rfl]; omega)]
    rw [hc]

/-- Witness for C3 at `x = 5`, `d = 7`: the identity case returns `5`. -/
theorem C3_witness : adjust_decimals 5 7 7 = Except.ok 5 :=
  (C3_adjust_decimals 5 7 (by decide)).1

/-- Claim C6: once a descriptor passes validation, a nonzero amount above
`u128::MAX / output_rate` makes `calculate_output_amount` fail with the
precheck-overflow error, and a nonzero amount above `u128::MAX / input_rate`
makes `calculate_input_amount` fail with its precheck-overflow error. -/
theorem C6_precheck (price : PairRate) (amount : Nat)
    (hr : validate_rate price.rate = .ok ())
    (hd : validate_decimals price.decimals = .ok ())
    (hnz : amount ≠ 0) :
    (U128_MAX / price.rate.2 < amount →
      calculate_output_amount price amount
        = .error "Input amount too large, would cause overflow") ∧
    (U128_MAX / price.rate.1 < amount →
      calculate_input_amount price amount
        = .error "Output amount too large, would cause overflow") := by
  constructor
  · intro h
    unfold calculate_output_amount
    rw [if_neg hnz, hr, hd]
    simp only []
    rw [if_pos h]
  · intro h
    unfold calculate_input_amount
    rw [if_neg hnz, hr, hd]
    simp only []
    rw [if_pos h]

/-- Witness for C6: rate `(1, 2)`, decimals `(18, 18)`, amount `u128::MAX`. -/
theorem C6_witness :
    calculate_output_amount
        { token_pair := ("A", "B"), rate := (1, 2), decimals := (18, 18) } U128_MAX
      = Except.error "Input amount too large, would cause overflow" :=
  (C6_precheck { token_pair := ("A", "B"), rate := (1, 2), decimals := (18, 18) }
    U128_MAX (by decide) (by decide) (by decide)).1 (by decide)

/-- Claim C7: with both decimal counts within `MAX_DECIMALS` but differing by
more than `MAX_DECIMAL_DIFF`, `adjust_decimals` fails with the
decimal-difference error (returning before any power of ten is computed). -/
theorem C7_decimal_gap (amount a b : Nat) (ha : a ≤ MAX_DECIMALS) (hb : b ≤ MAX_DECIMALS)
    (hdiff : MAX_DECIMAL_DIFF < (if a > b then a - b else b - a)) :
    adjust_decimals amount a b
      = .error ("Decimal difference " ++ toString (if a > b then a - b else b - a)
        ++ " exceeds maximum allowed " ++ toString MAX_DECIMAL_DIFF) := by
  unfold adjust_decimals
  rw [if_neg (by omega : ¬ (a > MAX_DECIMALS ∨ b > MAX_DECIMALS))]
  simp only []
  rw [if_pos hdiff]

/-- Witness for C7 at decimals `(0, 38)`: the gap `38` exceeds `32`. -/
theorem C7_witness :
    adjust_decimals 5 0 38
      = Except.error "Decimal difference 38 exceeds maximum allowed 32" := by
  have h := C7_decimal_gap 5 0 38 (by decide) (by decide) (by decide)
  exact h.trans (by decide)

/-- Claim C9: under the decimal-range and decimal-difference checks (both
counts at most 38, gap at most 32) the checked power of ten never overflows
`u128`, so the divisor-overflow and multiplier-overflow branches of
`adjust_decimals` are unreachable. -/
theorem C9_pow_no_overflow (amount a b : Nat) (ha : a ≤ MAX_DECIMALS)
    (hb : b ≤ MAX_DECIMALS)
    (hdiff : (if a > b then a - b else b - a) ≤ MAX_DECIMAL_DIFF) :
    checked_pow 10 (if a > b then a - b else b - a)
      = some (10 ^ (if a > b then a - b else b - a)) ∧
    adjust_decimals amount a b ≠ .error "Decimal divisor overflow" ∧
    adjust_decimals amount a b ≠ .error "Decimal multiplier overflow" := by
  have hpow : checked_pow 10 (if a > b then a - b else b - a)
      = some (10 ^ (if a > b then a - b else b - a)) := by
    unfold checked_pow
    rw [if_pos (pow10_le _ hdiff)]
  refine ⟨hpow, ?_, ?_⟩
  all_goals {
    by_cases heq : a = b
    · subst heq
      rw [adjust_self amount a ha]
      intro hc
      exact Except.noConfusion hc
    · by_cases hgt : a > b
      · rw [adjust_down amount a b hgt ha (by rw [if_pos hgt] at hdiff; exact hdiff)]
        intro hc
        exact Except.noConfusion hc
      · have hlt : a < b := by omega
        rw [adjust_up amount a b hlt hb
          (by rw [if_neg hgt] at hdiff; exact hdiff)]
        rcases hmul : checked_mul amount (10 ^ (b - a)) with _ | v
        · intro hc
          injection hc with hs
          exact absurd hs (by decide)
        · intro hc
          exact Except.noConfusion hc
  }

/-- Witness for C9 at `amount = 5`, decimals `(0, 6)`. -/
theorem C9_witness :
    checked_pow 10 (if 0 > 6 then 0 - 6 else 6 - 0)
      = some (10 ^ (if 0 > 6 then 0 - 6 else 6 - 0)) ∧
    adjust_decimals 5 0 6 ≠ Except.error "Decimal divisor overflow" ∧
    adjust_decimals 5 0 6 ≠ Except.error "Decimal multiplier overflow" :=
  C9_pow_no_overflow 5 0 6 (by decide) (by decide) (by decide)

/-- Claim C10: scaling up and then back down through `adjust_decimals` is
exact: if `a ≤ b ≤ MAX_DECIMALS` with `b - a ≤ MAX_DECIMAL_DIFF` and
`adjust_decimals x a b = Ok y`, then `adjust_decimals y b a = Ok x`. -/
theorem C10_up_down_exact (x a b y : Nat) (hab : a ≤ b) (hb : b ≤ MAX_DECIMALS)
    (hdiff : b - a ≤ MAX_DECIMAL_DIFF)
    (h : adjust_decimals x a b = .ok y) :
    adjust_decimals y b a = .ok x := by
  have ha : a ≤ MAX_DECIMALS := le_trans hab hb
  by_cases heq : a = b
  · subst heq
    rw [adjust_self x a ha] at h
    injection h with hxy
    rw [← hxy, adjust_self x a ha]
  · have hlt : a < b := by omega
    rw [adjust_up x a b hlt hb hdiff] at h
    unfold checked_mul at h
    by_cases hfit : x * 10 ^ (b - a) ≤ U128_MAX
    · rw [if_pos hfit] at h
      simp only [] at h
      injection h with hxy
      rw [adjust_down y b a hlt hb hdiff, ← hxy]
      have hp : 0 < 10 ^ (b - a) := Nat.pos_pow_of_pos _ (by norm_num)
      rw [Nat.mul_div_cancel x hp]
    · rw [if_neg hfit] at h
      exact absurd h (by intro hc; exact Except.noConfusion hc)

/-- Witness for C10: scaling `7` up from 18 to 24 decimals and back. -/
theorem C10_witness : adjust_decimals 7000000 24 18 = Except.ok 7 :=
  C10_up_down_exact 7 18 24 7000000 (by decide) (by decide) (by decide) (by decide)

/-- Does the first list occur at the head of the second? -/
def leadsWith : List Char → List Char → Bool
  | [], _ => true
  | _ :: _, [] => false
  | a :: as, b :: bs => a == b && leadsWith as bs

/-- Does the first list occur contiguously anywhere in the second? -/
def occursIn (sub : List Char) : List Char → Bool
  | [] => leadsWith sub []
  | b :: bs => leadsWith sub (b :: bs) || occursIn sub bs

/-- Does `sub` occur as a contiguous substring of `msg`? -/
def strContains (msg sub : String) : Bool := occursIn sub.data msg.data

/-- Counterexample to claim C8: for rate `(MAX_RATE + 1, 1)` the failure
message of `validate_rate` reports the bound `MAX_RATE` itself but does not
contain the offending value `MAX_RATE + 1` anywhere. -/
theorem C8_counterexample :
    validate_rate (MAX_RATE + 1, 1)
      = Except.error ("Rate components must be less than " ++ toString MAX_RATE) ∧
    strContains ("Rate components must be less than " ++ toString MAX_RATE)
      (toString (MAX_RATE + 1)) = false := by
  constructor
  · rfl
  · rfl

/-- Claim C8 as amended: every failure of `validate_rate` carries one of two
fixed messages, each naming the violated bound (the zero lower bound or the
`MAX_RATE` upper bound); neither message mentions the offending rate value. -/
theorem C8_validate_rate_messages (rate : Nat × Nat) :
    (rate.1 < MIN_RATE ∨ rate.2 < MIN_RATE →
      validate_rate rate = .error "Rate components must be greater than 0") ∧
    (¬ (rate.1 < MIN_RATE ∨ rate.2 < MIN_RATE) → (MAX_RATE < rate.1 ∨ MAX_RATE < rate.2) →
      validate_rate rate
        = .error ("Rate components must be less than " ++ toString MAX_RATE)) ∧
    (∀ e, validate_rate rate = .error e →
      e = "Rate components must be greater than 0" ∨
      e = "Rate components must be less than " ++ toString MAX_RATE) := by
  refine ⟨fun hz => ?_, fun hz hm => ?_, fun e he => ?_⟩
  · unfold validate_rate
    rw [if_pos hz]
  · unfold validate_rate
    rw [if_neg hz, if_pos (by omega : rate.1 > MAX_RATE ∨ rate.2 > MAX_RATE)]
  · unfold validate_rate at he
    split at he
    · injection he with hs
      exact Or.inl hs.symm
    · split at he
      · injection he with hs
        exact Or.inr hs.symm
      · exact Except.noConfusion he

/-- Witness for the amended C8 at rate `(0, 1)`: the zero bound is reported. -/
theorem C8_amended_witness :
    validate_rate (0, 1) = Except.error "Rate components must be greater than 0" :=
  (C8_validate_rate_messages (0, 1)).1 (by decide)

end InputOutput
